import Mathlib

/-!
Shallow embedding of the presence-tracking / notification-dispatch core of
the RealmsPlayerlistBot repository (src/main.py, src/exts/pl_event_handling.py).

Timestamps are modelled as natural numbers (seconds).  UUIDs produced by the
identity resolver are modelled as natural numbers.  Python sets of xuids are
modelled as `Finset String`; iteration over such a set is modelled by its
sorted listing (Python set iteration order is unspecified, and nothing below
depends on the order).
-/

namespace RPL

/-- A durable `PlayerSession` row (common.models.PlayerSession):
`custom_id` (the correlation identifier, conflict key), `realm_id`, `xuid`
(participant id), `online`, `last_seen`. -/
structure PlayerSession where
  custom_id : Nat
  realm_id : String
  xuid : String
  online : Bool
  last_seen : Nat
  deriving DecidableEq, Repr

/-- The cache key used by `bot.uuid_cache`: the Python expression
`f"{event.realm_id}-{p}"` from src/exts/pl_event_handling.py line 37. -/
def cacheKey (realm_id p : String) : String := realm_id ++ "-" ++ p

/-! C1: session rows built by the live-update dispatcher

`on_live_playerlist_send` (src/exts/pl_event_handling.py lines 35-44) builds
one `PlayerSession` per participant of `event.joined ∪ event.left`, with
`online = (p ∈ joined)` and `last_seen = event.timestamp`.  `uuidOf` stands
for the (already populated or defaultdict-extended) `bot.uuid_cache` lookup. -/

/-- The list comprehension of src/exts/pl_event_handling.py lines 35-44. -/
def buildPlayerSessions (uuidOf : String → Nat) (realm_id : String)
    (joined left : Finset String) (timestamp : Nat) : List PlayerSession :=
  ((joined ∪ left).sort (· ≤ ·)).map (fun p =>
    { custom_id := uuidOf (cacheKey realm_id p)
      realm_id := realm_id
      xuid := p
      online := decide (p ∈ joined)
      last_seen := timestamp })

/-! C2: startup recovery (src/main.py lines 271-280)

`start` first updates every `PlayerSession` row with `online = True` and
`last_seen < now - 5 minutes` to `online = False`, then seeds
`bot.online_cache` (and `bot.uuid_cache`) from the rows still online. -/

/-- Five minutes, in seconds (`datetime.timedelta(minutes=5)`). -/
def fiveMinutes : Nat := 300

/-- The `filter(online=True, last_seen__lt=five_minutes_ago).update(online=False)`
of src/main.py lines 272-275, applied to one row.  Over integers,
`last_seen < now - 300` is equivalent to `last_seen + 300 < now`; the latter
form avoids truncated natural subtraction. -/
def markStaleRow (now : Nat) (r : PlayerSession) : PlayerSession :=
  if r.online = true ∧ r.last_seen + fiveMinutes < now then
    { r with online := false }
  else r

/-- The whole-table update of src/main.py lines 272-275. -/
def markStale (now : Nat) (rows : List PlayerSession) : List PlayerSession :=
  rows.map (markStaleRow now)

/-- Seeding of `bot.online_cache` from rows still marked online
(src/main.py lines 277-280): the cache receives the pair
`(realm_id, xuid)` of every row with `online = True`. -/
def seedOnlineCache (rows : List PlayerSession) : List (String × String) :=
  (rows.filter (fun r => r.online)).map (fun r => (r.realm_id, r.xuid))

/-- The startup sequence of src/main.py lines 271-280: stale-marking, then
cache seeding from the updated table. -/
def startupRecovery (now : Nat) (rows : List PlayerSession) :
    List PlayerSession × List (String × String) :=
  let updated := markStale now rows
  (updated, seedOnlineCache updated)

/-! C8: the identity resolver (`bot.uuid_cache`)

src/main.py line 253: `bot.uuid_cache = defaultdict(uuid.uuid4)`, looked up
with the key `f"{realm_id}-{participant_id}"` (src/exts/pl_event_handling.py
line 37).  A `defaultdict` lookup returns the cached value when the key is
present, and otherwise calls the factory once, stores the result under the
key, and returns it.  The stream of fresh UUIDs is modelled by a counter. -/

/-- The state of `bot.uuid_cache`: the stored key/value pairs plus the fresh
identifier supply. -/
structure UuidCache where
  table : List (String × Nat)
  next : Nat
  deriving DecidableEq, Repr

/-- `bot.uuid_cache[f"{realm_id}-{p}"]` as a defaultdict lookup: return the
cached identifier if the pair's key was seen, otherwise allocate a fresh
identifier, cache it, and return it. -/
def UuidCache.resolve (st : UuidCache) (realm_id p : String) : Nat × UuidCache :=
  match st.table.lookup (cacheKey realm_id p) with
  | some v => (v, st)
  | none => (st.next, ⟨(cacheKey realm_id p, st.next) :: st.table, st.next + 1⟩)

/-! C10: seeding of `bot.live_playerlist_store` at startup -/

/-- A `GuildConfig` row, with the fields read by src/main.py and
src/exts/pl_event_handling.py.  `premium_code` is the id of the attached
premium-code row, if any. -/
structure GuildConfigRow where
  guild_id : Nat
  realm_id : Option String
  club_id : Option String
  playerlist_chan : Option Nat
  live_playerlist : Bool
  fetch_devices : Bool
  warning_notifications : Bool
  premium_code : Option Nat
  realm_offline_role : Option Nat
  deriving DecidableEq, Repr

/-- The startup seeding loop of src/main.py lines 288-294: for every config
matching the filter `premium_code__id__not_isnull=True,
realm_id__not_isnull=True, playerlist_chan__not_isnull=True,
live_playerlist=True`, the pair `(realm_id, guild_id)` is added to
`bot.live_playerlist_store`. -/
def seedLivePlayerlistStore (configs : List GuildConfigRow) :
    List (String × Nat) :=
  configs.filterMap (fun c =>
    if c.premium_code.isSome ∧ c.playerlist_chan.isSome ∧
        c.live_playerlist = true then
      c.realm_id.map (fun rid => (rid, c.guild_id))
    else none)

/-! C3: routing of an unreachable poll -/

/-- The `RealmDown` event of common.playerlist_events, with the fields read
by the handler in src/exts/pl_event_handling.py lines 105-113. -/
structure RealmDownEvent where
  realm_id : String
  disconnected : Finset String
  timestamp : Nat
  deriving DecidableEq

/-- The `LivePlayerlistSend` event of common.playerlist_events
(positional fields `realm_id, joined, left, timestamp`, matching the
dispatch on src/exts/pl_event_handling.py lines 109-113). -/
structure LivePlayerlistSendEvent where
  realm_id : String
  joined : Finset String
  left : Finset String
  timestamp : Nat
  deriving DecidableEq

/-- Outcome of polling one realm: a snapshot, or an explicit unreachable
signal carrying the set of players last known online. -/
inductive PollOutcome
  | snapshot (players : Finset String)
  | unreachable (disconnected : Finset String)
  deriving DecidableEq

/-- The two dispatch paths a poll outcome can take. -/
inductive PollRoute
  | diffPath (snapshot : Finset String)
  | realmDownPath (disconnected : Finset String)
  deriving DecidableEq

/-- Modelled from the spec: the poll-cycle router lives in the autorunner
extension, which is not under src/ (only the `realm_down` handler is).
Spec §4.4/§4.5: "total snapshot failure (source unreachable) must not be
interpreted as 'everyone left' — it is routed to the unreachable-realm path
instead, never through the normal diff path"; "On poll success with an
explicit 'realm unreachable' signal from the source, invokes
OfflineRealmTracker.mark_offline and emits a RealmDown event". -/
def routePoll : PollOutcome → PollRoute
  | .snapshot s => .diffPath s
  | .unreachable d => .realmDownPath d

/-- The start of the `realm_down` handler (src/exts/pl_event_handling.py
lines 108-113): when the realm's live-playerlist store is nonempty, a
`LivePlayerlistSend` is dispatched with `joined = set()` and
`left = event.disconnected`. -/
def realmDownDispatch (liveStoreNonempty : Bool) (e : RealmDownEvent) :
    Option LivePlayerlistSendEvent :=
  if liveStoreNonempty then
    some ⟨e.realm_id, ∅, e.disconnected, e.timestamp⟩
  else none

/-! C6/C7: per-destination dispatch in `on_live_playerlist_send`
(src/exts/pl_event_handling.py lines 76-103) -/

/-- Result of the delivery attempt for one destination (the try-block of
lines 96-103): `valueError` is the missing-channel failure raised by
`fetch_playerlist_channel`, `httpError` a permission/HTTP failure of the
send — exactly the two exception classes the handler catches, matching the
delivery collaborator's interface (success, permission error, missing
channel). -/
inductive DeliverOutcome
  | ok
  | valueError
  | httpError
  deriving DecidableEq, Repr

/-- Environment of one dispatch loop: which guilds the bot can currently
see, and how the channel-fetch-and-send to each guild behaves. -/
structure DispatchEnv where
  guildAvailable : Nat → Bool
  deliver : Nat → DeliverOutcome

/-- The action the loop body takes for one subscriber destination. -/
inductive LiveAction
  | invalidatePremium      -- pl_utils.invalidate_premium (line 82)
  | disableLive            -- live_playerlist cleared, store discard (85-89)
  | skipGuildUnavailable   -- guild not found (91-94)
  | delivered              -- chan.send succeeded (98)
  | skipValueError         -- fetch_playerlist_channel ValueError (99-100)
  | eventuallyInvalidate   -- pl_utils.eventually_invalidate (101-103)
  deriving DecidableEq, Repr

/-- The loop body of src/exts/pl_event_handling.py lines 76-103 for one
guild id `g` with stored config `c`: the action taken, paired with whether
the delivery try-block was entered. -/
def liveDispatchStep (env : DispatchEnv) (g : Nat) (c : GuildConfigRow) :
    LiveAction × Bool :=
  if c.premium_code.isNone then (.invalidatePremium, false)
  else if c.playerlist_chan.isNone then (.disableLive, false)
  else if env.guildAvailable g = false then (.skipGuildUnavailable, false)
  else
    match env.deliver g with
    | .ok => (.delivered, true)
    | .valueError => (.skipValueError, true)
    | .httpError => (.eventuallyInvalidate, true)

/-- The full dispatch loop over the realm's subscribed guild ids
(src/exts/pl_event_handling.py line 76), `configOf` giving each guild's
stored config: every guild id yields an outcome, since both delivery
failure classes are caught inside the loop body. -/
def liveDispatchLoop (env : DispatchEnv) (configOf : Nat → GuildConfigRow)
    (guilds : List Nat) : List (Nat × LiveAction × Bool) :=
  guilds.map (fun g => (g, liveDispatchStep env g (configOf g)))

/-! C4/C5: the `warning_missing_playerlist` handler
(src/exts/pl_event_handling.py lines 173-247) -/

/-- Environment of the warn-missing-playerlist handler: which guilds the
bot can see, whether `fetch_playerlist_channel` succeeds (its failure is a
ValueError), and whether the warning send succeeds (an HTTPException there
is suppressed). -/
structure WarnEnv where
  guildAvailable : Nat → Bool
  chanFetchOk : Nat → Bool
  sendOk : Nat → Bool

/-- Observable effects of processing one config in
`warning_missing_playerlist`, in execution order. -/
inductive WarnEffect
  | discardLiveStore       -- live_playerlist_store discard (lines 181-184)
  | resetConfig            -- realm/club/live/fetch-devices cleared, saved (186-191)
  | recordFailure (limit : Nat)  -- pl_utils.eventually_invalidate(..., limit) (206)
  | warnSent               -- warning embed delivered (208-231)
  deriving DecidableEq, Repr

/-- The loop body of lines 179-231 for one config: the effect list in
execution order, paired with the boolean appended to `no_playerlist_chan`
(True when the config lacks a playerlist channel). -/
def warnConfigStep (env : WarnEnv) (c : GuildConfigRow) :
    List WarnEffect × Bool :=
  if c.playerlist_chan.isNone then
    ((if c.realm_id.isSome ∧ c.live_playerlist = true
        then [.discardLiveStore] else []) ++ [.resetConfig], true)
  else if c.warning_notifications = false then ([], false)
  else if env.guildAvailable c.guild_id = false then ([], false)
  else
    ([.recordFailure 7] ++
      (if env.chanFetchOk c.guild_id then
        (if env.sendOk c.guild_id then [.warnSent] else [])
       else []), false)

/-- The whole handler loop plus the drop decision of line 233:
`all(no_playerlist_chan) or not no_playerlist_chan` — true exactly when
every appended flag is true (including the no-configs case). -/
def warnHandler (env : WarnEnv) (configs : List GuildConfigRow) :
    List (List WarnEffect) × Bool :=
  (configs.map (fun c => (warnConfigStep env c).1),
   (configs.map (fun c => (warnConfigStep env c).2)).all id)

/-- The realm-drop tail of lines 233-247: when the drop decision holds, the
realm is discarded from `bot.fetch_devices_for` and `realms.leave_realm` is
called, a 404 from the source being tolerated (logged) while any other
error status propagates; otherwise nothing happens.  `leaveResult` is the
source's response to the leave call, as an HTTP status on failure. -/
def warnHandlerTail (env : WarnEnv) (configs : List GuildConfigRow)
    (fetchDevicesFor : Finset String) (realm_id : String)
    (leaveResult : Except Nat Unit) : Finset String × Except Nat Unit :=
  if (warnHandler env configs).2 then
    (fetchDevicesFor.erase realm_id,
     match leaveResult with
     | .ok _ => .ok ()
     | .error status => if status = 404 then .ok () else .error status)
  else (fetchDevicesFor, .ok ())

/-! C9: durable persistence of parsed player sessions
(src/exts/pl_event_handling.py lines 20-29) -/

/-- Which `PlayerSession` fields the container's `fields` list selects for
update on conflict (`update_fields=container.fields`, line 28). -/
structure UpdateFields where
  realm_id : Bool
  xuid : Bool
  online : Bool
  last_seen : Bool
  deriving DecidableEq, Repr

/-- Modelled from the spec: the conflict update of the external durable
session store (`models.PlayerSession.bulk_create` with
`on_conflict=("custom_id",)`; common.models is not under src/).  Spec §6:
"bulk idempotent upsert of Participant Session rows keyed by
`correlation_id`, with specified conflict-update field list."  On conflict,
the stored row keeps its key and takes the incoming row's values for the
selected fields. -/
def applyFields (f : UpdateFields) (stored incoming : PlayerSession) :
    PlayerSession :=
  { custom_id := stored.custom_id
    realm_id := if f.realm_id then incoming.realm_id else stored.realm_id
    xuid := if f.xuid then incoming.xuid else stored.xuid
    online := if f.online then incoming.online else stored.online
    last_seen := if f.last_seen then incoming.last_seen else stored.last_seen }

/-- Modelled from the spec: the per-row conflict resolution — a stored row
is rewritten only when its `custom_id` equals the incoming row's. -/
def conflictUpdate (f : UpdateFields) (row r : PlayerSession) : PlayerSession :=
  if r.custom_id = row.custom_id then applyFields f r row else r

/-- Modelled from the spec: upsert of one row keyed on `custom_id` — update
the conflicting stored row if the key exists, append the row otherwise. -/
def upsertRow (f : UpdateFields) (db : List PlayerSession)
    (row : PlayerSession) : List PlayerSession :=
  if db.any (fun r => r.custom_id = row.custom_id) then
    db.map (conflictUpdate f row)
  else db ++ [row]

/-- Modelled from the spec:
`PlayerSession.bulk_create(container.player_sessions,
on_conflict=("custom_id",), update_fields=container.fields)` as invoked by
`on_playerlist_finish` (lines 24-29). -/
def bulk_create (f : UpdateFields) (db rows : List PlayerSession) :
    List PlayerSession :=
  rows.foldl (upsertRow f) db

/-- The `on_playerlist_finish` handler (lines 20-29): one bulk upsert per
container, each with its own update-field list. -/
def on_playerlist_finish
    (containers : List (List PlayerSession × UpdateFields))
    (db : List PlayerSession) : List PlayerSession :=
  containers.foldl (fun acc cont => bulk_create cont.2 acc cont.1) db

/-- Counting occurrences in a duplicate-free list: helper for C1. -/
theorem countP_eq_one_of_nodup_mem {l : List String} {p : String}
    (hnd : l.Nodup) (hmem : p ∈ l) :
    l.countP (fun q => decide (q = p)) = 1 := by
  induction l with
  | nil => simp at hmem
  | cons a t ih =>
    rw [List.countP_cons]
    rcases List.mem_cons.mp hmem with rfl | hmem'
    · have hz : t.countP (fun q => decide (q = p)) = 0 := by
        rw [List.countP_eq_zero]
        intro q hq
        simp only [decide_eq_true_eq]
        rintro rfl
        exact (List.nodup_cons.mp hnd).1 hq
      simp [hz]
    · have ha : a ≠ p := by
        rintro rfl
        exact (List.nodup_cons.mp hnd).1 hmem'
      have ht := ih (List.nodup_cons.mp hnd).2 hmem'
      simp [ht, ha]

/-! Theorems for C1 -/

/-- C1: For disjoint `joined` and `left`, the live-update dispatcher
builds exactly one session row per participant of `joined ∪ left` — online
exactly when the participant is in `joined`, offline when in `left`, with
`last_seen` equal to the event timestamp — and no row at all for a
participant in neither set. -/
theorem live_playerlist_builds_one_row_per_delta_participant
    (uuidOf : String → Nat) (realm_id : String)
    (joined left : Finset String) (timestamp : Nat)
    (hdisj : Disjoint joined left) :
    (∀ s ∈ buildPlayerSessions uuidOf realm_id joined left timestamp,
        s.realm_id = realm_id ∧ s.last_seen = timestamp ∧
        (s.xuid ∈ joined → s.online = true) ∧
        (s.xuid ∈ left → s.online = false)) ∧
    (∀ p ∈ joined ∪ left,
        ((buildPlayerSessions uuidOf realm_id joined left timestamp).filter
            (fun s => s.xuid = p)).length = 1) ∧
    (∀ p : String, p ∉ joined ∪ left →
        ((buildPlayerSessions uuidOf realm_id joined left timestamp).filter
            (fun s => s.xuid = p)).length = 0) := by
  refine ⟨?_, ?_, ?_⟩
  · intro s hs
    simp only [buildPlayerSessions, List.mem_map, Finset.mem_sort] at hs
    obtain ⟨p, hp, rfl⟩ := hs
    refine ⟨rfl, rfl, ?_, ?_⟩
    · intro hj
      simp only [decide_eq_true_eq]
      exact hj
    · intro hl
      simp only [decide_eq_false_iff_not]
      exact fun hj => (Finset.disjoint_left.mp hdisj) hj hl
  · intro p hp
    rw [buildPlayerSessions, ← List.countP_eq_length_filter, List.countP_map]
    have hnodup : ((joined ∪ left).sort (· ≤ ·)).Nodup := Finset.sort_nodup _ _
    have hmem : p ∈ (joined ∪ left).sort (· ≤ ·) := by
      rw [Finset.mem_sort]; exact hp
    exact countP_eq_one_of_nodup_mem hnodup hmem
  · intro p hp
    rw [buildPlayerSessions, ← List.countP_eq_length_filter, List.countP_map]
    rw [List.countP_eq_zero]
    intro q hq
    simp only [Function.comp_apply, decide_eq_true_eq]
    rintro rfl
    exact hp ((Finset.mem_sort _).mp hq)

/-- Witness for C1 at `joined = {"C"}`, `left = {"A"}`. -/
theorem live_playerlist_builds_one_row_per_delta_participant_witness :
    Disjoint ({"C"} : Finset String) ({"A"} : Finset String) ∧
    (∀ s ∈ buildPlayerSessions (fun _ => 0) "R1" {"C"} {"A"} 100,
        s.realm_id = "R1" ∧ s.last_seen = 100 ∧
        (s.xuid ∈ ({"C"} : Finset String) → s.online = true) ∧
        (s.xuid ∈ ({"A"} : Finset String) → s.online = false)) ∧
    (∀ p ∈ ({"C"} : Finset String) ∪ {"A"},
        ((buildPlayerSessions (fun _ => 0) "R1" {"C"} {"A"} 100).filter
            (fun s => s.xuid = p)).length = 1) ∧
    (∀ p : String, p ∉ ({"C"} : Finset String) ∪ {"A"} →
        ((buildPlayerSessions (fun _ => 0) "R1" {"C"} {"A"} 100).filter
            (fun s => s.xuid = p)).length = 0) :=
  ⟨by decide,
   live_playerlist_builds_one_row_per_delta_participant
     (fun _ => 0) "R1" {"C"} {"A"} 100 (by decide)⟩

/-! Theorems for C2 -/

/-- C2: At startup, every session row online with `last_seen` more than
five minutes before `now` is updated to offline, and the seeded online cache
contains only pairs coming from rows that are online and within the grace
window — no participant stale for more than five minutes is seeded online. -/
theorem startup_marks_stale_offline_and_seeds_only_fresh
    (now : Nat) (rows : List PlayerSession) :
    (∀ r ∈ rows, r.online = true → r.last_seen + fiveMinutes < now →
        ({ r with online := false } : PlayerSession) ∈
          (startupRecovery now rows).1) ∧
    (∀ r ∈ (startupRecovery now rows).1, r.online = true →
        now ≤ r.last_seen + fiveMinutes) ∧
    (∀ e ∈ (startupRecovery now rows).2, ∃ r ∈ rows,
        e = (r.realm_id, r.xuid) ∧ r.online = true ∧
        now ≤ r.last_seen + fiveMinutes) := by
  refine ⟨?_, ?_, ?_⟩
  · intro r hr hon hstale
    simp only [startupRecovery, markStale, List.mem_map]
    exact ⟨r, hr, by simp [markStaleRow, hon, hstale]⟩
  · intro r hr hon
    simp only [startupRecovery, markStale, List.mem_map] at hr
    obtain ⟨r₀, _, rfl⟩ := hr
    by_cases hc : r₀.online = true ∧ r₀.last_seen + fiveMinutes < now
    · simp [markStaleRow, hc] at hon
    · rw [markStaleRow, if_neg hc] at hon ⊢
      push_neg at hc
      exact hc hon
  · intro e he
    simp only [startupRecovery, seedOnlineCache, markStale, List.mem_map,
      List.mem_filter] at he
    obtain ⟨r', ⟨hr', hon⟩, rfl⟩ := he
    obtain ⟨r₀, hr₀, rfl⟩ := hr'
    by_cases hc : r₀.online = true ∧ r₀.last_seen + fiveMinutes < now
    · simp [markStaleRow, hc] at hon
    · rw [markStaleRow, if_neg hc] at hon ⊢
      push_neg at hc
      exact ⟨r₀, hr₀, rfl, hon, hc hon⟩

/-- Witness for C2: a row `{online: true, last_seen: now − 10 minutes}` with
`now = 1000`. -/
theorem startup_marks_stale_offline_and_seeds_only_fresh_witness :
    (({ custom_id := 7, realm_id := "R1", xuid := "A", online := false,
        last_seen := 400 } : PlayerSession) ∈
      (startupRecovery 1000
        [{ custom_id := 7, realm_id := "R1", xuid := "A", online := true,
           last_seen := 400 }]).1) ∧
    (startupRecovery 1000
        [{ custom_id := 7, realm_id := "R1", xuid := "A", online := true,
           last_seen := 400 }]).2 = [] := by
  have h := startup_marks_stale_offline_and_seeds_only_fresh 1000
    [{ custom_id := 7, realm_id := "R1", xuid := "A", online := true,
       last_seen := 400 }]
  exact ⟨h.1 (⟨7, "R1", "A", true, 400⟩ : PlayerSession)
      (by decide) (by decide) (by decide), by decide⟩

/-! Theorems for C8 -/

/-- C8: Resolving the correlation identifier of a pair `(R, P)` twice
returns the same value (and leaves the cache unchanged the second time), and
a pair whose key is already cached gets its cached identifier back with no
new allocation — a fresh identifier is allocated only on the first lookup of
a never-seen pair. -/
theorem uuid_cache_resolve_idempotent (st : UuidCache) (r p : String) :
    (((st.resolve r p).2.resolve r p).1 = (st.resolve r p).1 ∧
     ((st.resolve r p).2.resolve r p).2 = (st.resolve r p).2) ∧
    (∀ v, st.table.lookup (cacheKey r p) = some v →
        st.resolve r p = (v, st)) ∧
    ((st.resolve r p).2 ≠ st →
        st.table.lookup (cacheKey r p) = none) := by
  refine ⟨?_, ?_, ?_⟩
  · unfold UuidCache.resolve
    cases hl : st.table.lookup (cacheKey r p) with
    | some v => simp [hl]
    | none => simp [hl, List.lookup]
  · intro v hv
    unfold UuidCache.resolve
    rw [hv]
  · intro hne
    cases hl : st.table.lookup (cacheKey r p) with
    | some v =>
      exfalso
      apply hne
      unfold UuidCache.resolve
      rw [hl]
    | none => rfl

/-- Witness for C8 at a concrete cache holding the pair `("R1", "A")`. -/
theorem uuid_cache_resolve_idempotent_witness :
    ((⟨[("R1-A", 5)], 6⟩ : UuidCache).table.lookup (cacheKey "R1" "A")
        = some 5) ∧
    (⟨[("R1-A", 5)], 6⟩ : UuidCache).resolve "R1" "A"
        = (5, (⟨[("R1-A", 5)], 6⟩ : UuidCache)) :=
  ⟨by decide,
   (uuid_cache_resolve_idempotent ⟨[("R1-A", 5)], 6⟩ "R1" "A").2.1 5
     (by decide)⟩

/-! Theorems for C10 -/

/-- C10: The live-playerlist store seeded at startup contains the pair
`(r, g)` exactly when some stored config has guild id `g`, realm id `r`, a
non-null premium code, a non-null playerlist channel, and the
live-playerlist flag enabled. -/
theorem live_store_seeded_exactly_from_qualified_configs
    (configs : List GuildConfigRow) (r : String) (g : Nat) :
    (r, g) ∈ seedLivePlayerlistStore configs ↔
      ∃ c ∈ configs, c.guild_id = g ∧ c.realm_id = some r ∧
        c.premium_code.isSome = true ∧ c.playerlist_chan.isSome = true ∧
        c.live_playerlist = true := by
  unfold seedLivePlayerlistStore
  rw [List.mem_filterMap]
  constructor
  · rintro ⟨c, hc, hout⟩
    by_cases hcond : c.premium_code.isSome = true ∧
        c.playerlist_chan.isSome = true ∧ c.live_playerlist = true
    · rw [if_pos hcond] at hout
      obtain ⟨rid, hrid, heq⟩ := Option.map_eq_some'.mp hout
      obtain ⟨hr, hg⟩ := Prod.mk.injEq .. ▸ heq
      exact ⟨c, hc, hg, hr ▸ hrid, hcond.1, hcond.2.1, hcond.2.2⟩
    · rw [if_neg hcond] at hout
      simp at hout
  · rintro ⟨c, hc, hg, hrid, hprem, hchan, hlive⟩
    refine ⟨c, hc, ?_⟩
    rw [if_pos ⟨hprem, hchan, hlive⟩, hrid, hg]
    rfl

/-- Witness for C10: a qualified config row is seeded. -/
theorem live_store_seeded_exactly_from_qualified_configs_witness :
    ("R1", 42) ∈ seedLivePlayerlistStore
      [⟨42, some "R1", none, some 9, true, false, true, some 1, none⟩] :=
  (live_store_seeded_exactly_from_qualified_configs
      [⟨42, some "R1", none, some 9, true, false, true, some 1, none⟩]
      "R1" 42).mpr
    ⟨⟨42, some "R1", none, some 9, true, false, true, some 1, none⟩,
      by decide, rfl, rfl, rfl, rfl, rfl⟩

/-! Theorems for C3 -/

/-- C3: An unreachable poll outcome is routed to the dedicated
realm-down path, never to the normal diff path, and the only live-update
event the realm-down handler dispatches carries `joined = ∅` and
`left = disconnected` — it is never presented as a normal "everyone left"
diff outcome of the diff path. -/
theorem unreachable_poll_never_takes_diff_path (d : Finset String) :
    routePoll (.unreachable d) = .realmDownPath d ∧
    (∀ s, routePoll (.unreachable d) ≠ .diffPath s) ∧
    (∀ (b : Bool) (e : RealmDownEvent) (ev : LivePlayerlistSendEvent),
        realmDownDispatch b e = some ev →
          ev.joined = ∅ ∧ ev.left = e.disconnected) := by
  refine ⟨rfl, ?_, ?_⟩
  · intro s h
    cases h
  · intro b e ev hev
    cases b with
    | false => simp [realmDownDispatch] at hev
    | true =>
      unfold realmDownDispatch at hev
      rw [if_pos rfl] at hev
      injection hev with h
      subst h
      exact ⟨rfl, rfl⟩

/-- Witness for C3 at a concrete disconnected set and event. -/
theorem unreachable_poll_never_takes_diff_path_witness :
    routePoll (.unreachable {"A", "B"}) = .realmDownPath {"A", "B"} ∧
    ((⟨"R1", ∅, {"A", "B"}, 50⟩ : LivePlayerlistSendEvent).joined = ∅ ∧
     (⟨"R1", ∅, {"A", "B"}, 50⟩ : LivePlayerlistSendEvent).left
        = ({"A", "B"} : Finset String)) :=
  ⟨(unreachable_poll_never_takes_diff_path {"A", "B"}).1,
   (unreachable_poll_never_takes_diff_path {"A", "B"}).2.2 true
     ⟨"R1", {"A", "B"}, 50⟩ ⟨"R1", ∅, {"A", "B"}, 50⟩ rfl⟩

/-! Theorems for C6 -/

/-- C6: A destination whose entitlement is gone (`premium_code` null) is
routed to the dedicated entitlement-lost path before the channel check and
before any delivery attempt: the loop body's action is `invalidatePremium`
— not the failure-counter action `eventuallyInvalidate` — and the delivery
try-block is never entered, whatever the channel config, guild availability
or delivery behaviour. -/
theorem entitlement_lost_short_circuits
    (env : DispatchEnv) (g : Nat) (c : GuildConfigRow)
    (h : c.premium_code = none) :
    liveDispatchStep env g c = (.invalidatePremium, false) := by
  unfold liveDispatchStep
  rw [if_pos (by rw [h]; rfl)]

/-- Witness for C6: a destination with no premium code, no channel, a
visible guild and a failing delivery still takes the entitlement-lost path
with no delivery attempt. -/
theorem entitlement_lost_short_circuits_witness :
    liveDispatchStep ⟨fun _ => true, fun _ => .httpError⟩ 9
        ⟨9, some "R1", none, none, true, false, true, none, none⟩
      = (.invalidatePremium, false) :=
  entitlement_lost_short_circuits ⟨fun _ => true, fun _ => .httpError⟩ 9
    ⟨9, some "R1", none, none, true, false, true, none, none⟩ rfl

/-! Theorems for C7 -/

/-- C7: The dispatch loop yields one outcome per destination: a
delivery failure is classified inside the loop body (an HTTP/permission
failure routes to `eventuallyInvalidate`, a missing-channel failure to a
skip) rather than escaping, and changing the delivery behaviour or guild
availability of one broken destination `bad` does not change the outcome of
any other destination. -/
theorem broken_destination_does_not_block_others
    (env env' : DispatchEnv) (configOf : Nat → GuildConfigRow)
    (guilds : List Nat) (bad : Nat)
    (hg : ∀ g, g ≠ bad → env.guildAvailable g = env'.guildAvailable g)
    (hd : ∀ g, g ≠ bad → env.deliver g = env'.deliver g) :
    ((liveDispatchLoop env configOf guilds).length = guilds.length) ∧
    (∀ g ∈ guilds,
        (g, liveDispatchStep env g (configOf g)) ∈
          liveDispatchLoop env configOf guilds) ∧
    (∀ g c, c.premium_code.isSome → c.playerlist_chan.isSome →
        env.guildAvailable g = true → env.deliver g = .httpError →
        liveDispatchStep env g c = (.eventuallyInvalidate, true)) ∧
    (∀ g ∈ guilds, g ≠ bad →
        liveDispatchStep env g (configOf g)
          = liveDispatchStep env' g (configOf g)) := by
  refine ⟨List.length_map _ _, ?_, ?_, ?_⟩
  · intro g hgmem
    exact List.mem_map.mpr ⟨g, hgmem, rfl⟩
  · intro g c hprem hchan hguild hdel
    cases hpc : c.premium_code with
    | none => rw [hpc] at hprem; cases hprem
    | some v =>
      cases hchn : c.playerlist_chan with
      | none => rw [hchn] at hchan; cases hchan
      | some w => simp [liveDispatchStep, hpc, hchn, hguild, hdel]
  · intro g _ hgbad
    unfold liveDispatchStep
    rw [hg g hgbad, hd g hgbad]

/-- Witness for C7: two destinations, the first one broken (HTTP failure on
delivery); the loop still produces an outcome for both, with the broken one
routed to the failure counter and the healthy one delivered. -/
theorem broken_destination_does_not_block_others_witness :
    liveDispatchLoop
        ⟨fun _ => true, fun g => if g = 1 then .httpError else .ok⟩
        (fun g => ⟨g, some "R1", none, some 5, true, false, true, some 3, none⟩)
        [1, 2]
      = [(1, .eventuallyInvalidate, true), (2, .delivered, true)] ∧
    liveDispatchStep
        ⟨fun _ => true, fun g => if g = 1 then .httpError else .ok⟩ 2
        ⟨2, some "R1", none, some 5, true, false, true, some 3, none⟩
      = liveDispatchStep ⟨fun _ => true, fun _ => .ok⟩ 2
          ⟨2, some "R1", none, some 5, true, false, true, some 3, none⟩ :=
  ⟨by decide,
   (broken_destination_does_not_block_others
      ⟨fun _ => true, fun g => if g = 1 then .httpError else .ok⟩
      ⟨fun _ => true, fun _ => .ok⟩
      (fun g => ⟨g, some "R1", none, some 5, true, false, true, some 3, none⟩)
      [1, 2] 1
      (fun _ _ => rfl)
      (fun g hgbad => by
        simp only [if_neg hgbad])).2.2.2 2 (by decide) (by decide)⟩

/-! Theorems for C4 -/

/-- The flag appended to `no_playerlist_chan` for one config is true exactly
when the config lacks a playerlist channel. -/
theorem warnConfigStep_flag (env : WarnEnv) (c : GuildConfigRow) :
    (warnConfigStep env c).2 = c.playerlist_chan.isNone := by
  unfold warnConfigStep
  by_cases h : c.playerlist_chan.isNone = true
  · rw [if_pos h, h]
  · rw [if_neg h]
    rw [Bool.not_eq_true] at h
    rw [h]
    split_ifs <;> rfl

/-- The drop decision holds exactly when every config lacks a playerlist
channel (vacuously for no configs). -/
theorem warnHandler_drop_iff (env : WarnEnv) (configs : List GuildConfigRow) :
    (warnHandler env configs).2 = true ↔
      ∀ c ∈ configs, c.playerlist_chan = none := by
  show (configs.map (fun c => (warnConfigStep env c).2)).all id = true ↔ _
  rw [List.all_eq_true]
  constructor
  · intro h c hc
    have h2 := h _ (List.mem_map.mpr ⟨c, hc, rfl⟩)
    rw [id_eq, warnConfigStep_flag, Option.isNone_iff_eq_none] at h2
    exact h2
  · intro h b hb
    obtain ⟨c, hc, rfl⟩ := List.mem_map.mp hb
    rw [id_eq, warnConfigStep_flag, Option.isNone_iff_eq_none]
    exact h c hc

/-- C4: The realm is dropped from the rotation — fetch-devices flag
discarded and a leave issued to the source — exactly when every subscriber
destination lacks a configured playerlist channel (the state left behind by
an exhausted failure limit), or there are no destinations at all; during
the drop a 404 from the source is tolerated while any other error status
propagates. -/
theorem realm_dropped_iff_no_destination_subscribed
    (env : WarnEnv) (configs : List GuildConfigRow)
    (fd : Finset String) (rid : String) (leaveResult : Except Nat Unit) :
    ((warnHandler env configs).2 = true ↔
      configs = [] ∨ ∀ c ∈ configs, c.playerlist_chan = none) ∧
    ((warnHandler env configs).2 = true →
        (warnHandlerTail env configs fd rid leaveResult).1 = fd.erase rid ∧
        (leaveResult = .error 404 →
          (warnHandlerTail env configs fd rid leaveResult).2 = .ok ()) ∧
        (∀ s, s ≠ 404 → leaveResult = .error s →
          (warnHandlerTail env configs fd rid leaveResult).2 = .error s)) ∧
    ((warnHandler env configs).2 = false →
        warnHandlerTail env configs fd rid leaveResult = (fd, .ok ())) := by
  refine ⟨?_, ?_, ?_⟩
  · rw [warnHandler_drop_iff]
    constructor
    · intro h
      exact Or.inr h
    · rintro (rfl | h)
      · intro c hc
        cases hc
      · exact h
  · intro hdrop
    unfold warnHandlerTail
    rw [if_pos hdrop]
    refine ⟨rfl, ?_, ?_⟩
    · rintro rfl
      rfl
    · rintro s hs rfl
      show (if s = 404 then Except.ok () else Except.error s) = Except.error s
      rw [if_neg hs]
  · intro hdrop
    unfold warnHandlerTail
    rw [if_neg (by rw [hdrop]; exact Bool.false_ne_true)]

/-- Witness for C4: no destinations at all — the drop happens, the
fetch-devices flag is discarded, and a 404 from the leave call is
tolerated. -/
theorem realm_dropped_iff_no_destination_subscribed_witness :
    ((warnHandler ⟨fun _ => true, fun _ => true, fun _ => true⟩
        ([] : List GuildConfigRow)).2 = true) ∧
    ((warnHandlerTail ⟨fun _ => true, fun _ => true, fun _ => true⟩ []
        ({"R1"} : Finset String) "R1" (.error 404)).1
      = ({"R1"} : Finset String).erase "R1") ∧
    ((warnHandlerTail ⟨fun _ => true, fun _ => true, fun _ => true⟩ []
        ({"R1"} : Finset String) "R1" (.error 404)).2 = .ok ()) := by
  have h := realm_dropped_iff_no_destination_subscribed
    ⟨fun _ => true, fun _ => true, fun _ => true⟩ [] {"R1"} "R1" (.error 404)
  have hdrop := h.1.mpr (Or.inl rfl)
  exact ⟨hdrop, (h.2.1 hdrop).1, (h.2.1 hdrop).2.1 rfl⟩

/-! Theorems for C5 -/

/-- Counterexample to C5 as stated: a destination with a configured
delivery channel but warning notifications disabled gets no
realm-missing-data failure recorded (and no warning) — the handler skips it
before the `eventually_invalidate(limit=7)` call. -/
theorem warn_skips_destination_without_notifications :
    ((⟨1, some "R1", none, some 5, false, false, false, some 1, none⟩ :
        GuildConfigRow).playerlist_chan.isSome = true) ∧
    WarnEffect.recordFailure 7 ∉
      (warnConfigStep ⟨fun _ => true, fun _ => true, fun _ => true⟩
        ⟨1, some "R1", none, some 5, false, false, false, some 1, none⟩).1 := by
  decide

/-- C5 (amended): A destination with a configured delivery channel and
warning notifications enabled, whose guild the bot can see, has a
realm-missing-data failure recorded against the class limit of 7 cycles as
the first action of its processing, and — when the channel fetch and the
send succeed — is informed by the dedicated warning notification in the
same cycle. -/
theorem warn_records_failure_limit7_then_warns
    (env : WarnEnv) (c : GuildConfigRow)
    (hchan : c.playerlist_chan.isSome = true)
    (hwarn : c.warning_notifications = true)
    (hguild : env.guildAvailable c.guild_id = true) :
    (warnConfigStep env c).1.head? = some (.recordFailure 7) ∧
    (env.chanFetchOk c.guild_id = true → env.sendOk c.guild_id = true →
        (warnConfigStep env c).1 = [.recordFailure 7, .warnSent]) := by
  cases hc : c.playerlist_chan with
  | none => rw [hc] at hchan; cases hchan
  | some w =>
    constructor
    · simp [warnConfigStep, hc, hwarn, hguild]
    · intro h1 h2
      simp [warnConfigStep, hc, hwarn, hguild, h1, h2]

/-- Witness for C5 (amended) at a fully-healthy destination. -/
theorem warn_records_failure_limit7_then_warns_witness :
    (warnConfigStep ⟨fun _ => true, fun _ => true, fun _ => true⟩
        ⟨2, some "R1", none, some 5, true, false, true, some 1, none⟩).1
      = [.recordFailure 7, .warnSent] :=
  (warn_records_failure_limit7_then_warns
      ⟨fun _ => true, fun _ => true, fun _ => true⟩
      ⟨2, some "R1", none, some 5, true, false, true, some 1, none⟩
      rfl rfl rfl).2 rfl rfl

/-! Theorems for C9 -/

/-- The upsert's presence test agrees with membership of the key among the
stored keys. -/
theorem any_key_eq_mem (db : List PlayerSession) (k : Nat) :
    (db.any (fun r => r.custom_id = k) = true) ↔
      k ∈ db.map (fun r => r.custom_id) := by
  rw [List.any_eq_true, List.mem_map]
  constructor
  · rintro ⟨r, hr, hk⟩
    rw [decide_eq_true_eq] at hk
    exact ⟨r, hr, hk⟩
  · rintro ⟨r, hr, hk⟩
    exact ⟨r, hr, by rw [decide_eq_true_eq]; exact hk⟩

/-- Conflict resolution never changes a stored row's key. -/
theorem conflictUpdate_custom_id (f : UpdateFields) (row r : PlayerSession) :
    (conflictUpdate f row r).custom_id = r.custom_id := by
  unfold conflictUpdate
  split <;> rfl

/-- Applying the same incoming row's field updates twice equals applying
them once. -/
theorem applyFields_idem (f : UpdateFields) (a b : PlayerSession) :
    applyFields f (applyFields f a b) b = applyFields f a b := by
  unfold applyFields
  cases hr : f.realm_id <;> cases hx : f.xuid <;> cases ho : f.online <;>
    cases hl : f.last_seen <;> simp

/-- Merging a row into itself is the identity. -/
theorem applyFields_self (f : UpdateFields) (a : PlayerSession) :
    applyFields f a a = a := by
  cases a
  simp [applyFields]

/-- Conflict resolution against a fixed incoming row is idempotent. -/
theorem conflictUpdate_idem (f : UpdateFields) (row r : PlayerSession) :
    conflictUpdate f row (conflictUpdate f row r) = conflictUpdate f row r := by
  unfold conflictUpdate
  by_cases h : r.custom_id = row.custom_id
  · rw [if_pos h, if_pos (show (applyFields f r row).custom_id = row.custom_id from h)]
    exact applyFields_idem f r row
  · rw [if_neg h, if_neg h]

/-- Upserting a row whose key is already stored changes no key. -/
theorem upsertRow_ids_of_mem (f : UpdateFields) (db : List PlayerSession)
    (row : PlayerSession)
    (h : row.custom_id ∈ db.map (fun r => r.custom_id)) :
    (upsertRow f db row).map (fun r => r.custom_id)
      = db.map (fun r => r.custom_id) := by
  unfold upsertRow
  rw [if_pos ((any_key_eq_mem db row.custom_id).mpr h), List.map_map]
  exact List.map_congr_left (fun r _ => conflictUpdate_custom_id f row r)

/-- A single upsert preserves key-distinctness of the store. -/
theorem upsertRow_nodup (f : UpdateFields) (db : List PlayerSession)
    (row : PlayerSession)
    (h : (db.map (fun r => r.custom_id)).Nodup) :
    ((upsertRow f db row).map (fun r => r.custom_id)).Nodup := by
  by_cases hc : db.any (fun r => r.custom_id = row.custom_id) = true
  · rw [upsertRow_ids_of_mem f db row ((any_key_eq_mem db row.custom_id).mp hc)]
    exact h
  · unfold upsertRow
    rw [if_neg hc, List.map_append]
    rw [List.nodup_append]
    refine ⟨h, List.nodup_singleton _, ?_⟩
    intro a ha hb
    simp only [List.map_cons, List.map_nil, List.mem_singleton] at hb
    subst hb
    exact hc ((any_key_eq_mem db row.custom_id).mpr ha)

/-- A bulk upsert preserves key-distinctness of the store. -/
theorem bulk_create_nodup (f : UpdateFields) (rows : List PlayerSession) :
    ∀ db : List PlayerSession, (db.map (fun r => r.custom_id)).Nodup →
      ((bulk_create f db rows).map (fun r => r.custom_id)).Nodup := by
  induction rows with
  | nil => intro db h; exact h
  | cons r rs ih =>
    intro db h
    rw [bulk_create, List.foldl_cons]
    exact ih _ (upsertRow_nodup f db r h)

/-- Upserting the same row a second time changes nothing. -/
theorem upsertRow_idem (f : UpdateFields) (db : List PlayerSession)
    (row : PlayerSession) :
    upsertRow f (upsertRow f db row) row = upsertRow f db row := by
  by_cases hc : db.any (fun r => r.custom_id = row.custom_id) = true
  · have h1 : upsertRow f db row = db.map (conflictUpdate f row) := by
      rw [upsertRow, if_pos hc]
    have hmem : row.custom_id ∈
        (db.map (conflictUpdate f row)).map (fun r => r.custom_id) := by
      have hcomp : List.map ((fun r : PlayerSession => r.custom_id) ∘
            conflictUpdate f row) db
          = List.map (fun r : PlayerSession => r.custom_id) db :=
        List.map_congr_left (fun r _ => conflictUpdate_custom_id f row r)
      rw [List.map_map, hcomp]
      exact (any_key_eq_mem db row.custom_id).mp hc
    have hc2 : (db.map (conflictUpdate f row)).any
        (fun r => r.custom_id = row.custom_id) = true :=
      (any_key_eq_mem _ row.custom_id).mpr hmem
    rw [h1, upsertRow, if_pos hc2, List.map_map]
    exact List.map_congr_left (fun r _ => conflictUpdate_idem f row r)
  · have h1 : upsertRow f db row = db ++ [row] := by
      rw [upsertRow, if_neg hc]
    have hm : (db ++ [row]).any (fun r => r.custom_id = row.custom_id) = true := by
      rw [any_key_eq_mem, List.map_append]
      exact List.mem_append_right _ (by simp)
    have hne : ∀ r ∈ db, ¬(r.custom_id = row.custom_id) := by
      intro r hr heq
      exact hc (List.any_eq_true.mpr ⟨r, hr, by rw [decide_eq_true_eq]; exact heq⟩)
    have hdb : db.map (conflictUpdate f row) = db := by
      have := List.map_congr_left
        (fun r hr => by
          unfold conflictUpdate
          rw [if_neg (hne r hr)]
          rfl :
          ∀ r ∈ db, conflictUpdate f row r = id r)
      rw [this, List.map_id]
    have hrow : [row].map (conflictUpdate f row) = [row] := by
      simp [conflictUpdate, applyFields_self]
    rw [h1, upsertRow, if_pos hm, List.map_append, hdb, hrow]

/-- C9: Persistence is an idempotent upsert keyed on `custom_id`:
re-upserting the same session row is a no-op beyond the first upsert, an
upsert whose key is already stored changes no key (it merges into the
existing row instead of duplicating it), and a bulk upsert into a store
with pairwise-distinct keys leaves the keys pairwise distinct. -/
theorem bulk_upsert_merges_on_custom_id (f : UpdateFields)
    (db rows : List PlayerSession) (row : PlayerSession) :
    (upsertRow f (upsertRow f db row) row = upsertRow f db row) ∧
    (row.custom_id ∈ db.map (fun r => r.custom_id) →
      (upsertRow f db row).map (fun r => r.custom_id)
        = db.map (fun r => r.custom_id)) ∧
    ((db.map (fun r => r.custom_id)).Nodup →
      ((bulk_create f db rows).map (fun r => r.custom_id)).Nodup) :=
  ⟨upsertRow_idem f db row, upsertRow_ids_of_mem f db row,
   bulk_create_nodup f rows db⟩

/-- Witness for C9 on a one-row store and a conflicting session update. -/
theorem bulk_upsert_merges_on_custom_id_witness :
    (upsertRow ⟨true, true, true, true⟩
        (upsertRow ⟨true, true, true, true⟩
          [⟨1, "R", "A", true, 10⟩] ⟨1, "R", "A", false, 20⟩)
        ⟨1, "R", "A", false, 20⟩
      = upsertRow ⟨true, true, true, true⟩
          [⟨1, "R", "A", true, 10⟩] ⟨1, "R", "A", false, 20⟩) ∧
    ((upsertRow ⟨true, true, true, true⟩
        [⟨1, "R", "A", true, 10⟩] ⟨1, "R", "A", false, 20⟩).map
          (fun r => r.custom_id)
      = ([⟨1, "R", "A", true, 10⟩] :
          List PlayerSession).map (fun r => r.custom_id)) ∧
    ((bulk_create ⟨true, true, true, true⟩
        [⟨1, "R", "A", true, 10⟩] [⟨1, "R", "A", false, 20⟩]).map
          (fun r => r.custom_id)).Nodup := by
  have h := bulk_upsert_merges_on_custom_id ⟨true, true, true, true⟩
    [⟨1, "R", "A", true, 10⟩] [⟨1, "R", "A", false, 20⟩]
    ⟨1, "R", "A", false, 20⟩
  exact ⟨h.1, h.2.1 (by decide), h.2.2 (by decide)⟩

end RPL
